import Mathlib

/-!
Shallow embedding of the rey-voice-client server core
(src/server/server.py, src/server/hey_rey_detector.py, src/server/config.py).

Modelling conventions:
- Audio samples are rationals (the Python code works with float32 samples in
  [-1, 1]; the exact float rounding of samples is irrelevant to every claim,
  which only concern control flow, counters and thresholds).
- numpy RMS tests of the form `sqrt(mean(x ** 2)) < t` with `t > 0` are
  embedded as `mean(x ** 2) < t * t`, which is equivalent since both sides of
  the original comparison are nonnegative; this keeps everything inside ℚ.
  (For an empty sample list numpy would produce NaN and the comparison would
  be False; in ℚ the mean is 0/0 = 0.  No claim depends on that corner, and
  a comment marks the one place it could matter.)
- Collaborator calls (MFCC + LSTM inference, Whisper transcription, the
  OpenClaw HTTP request, the two TTS providers) are oracles supplied in an
  `Env` record.  A raising call is `none` / `Except.error`, a returning call
  is `some` / `Except.ok`.  This mirrors the try/except structure of the
  source.
- Messages sent over the websocket are recorded as an event trace (`Ev`).
- The `asyncio` sleeps are pure no-ops on the modelled state; the statements
  they separate are embedded in program order.
-/

namespace ReyVoice

/-! ### Constants (config.py and hey_rey_detector.py) -/

/-- config.SAMPLE_RATE = 16000 -/
def SAMPLE_RATE : ℕ := 16000

/-- config.CHUNK_SIZE = 512 -/
def CHUNK_SIZE : ℕ := 512

/-- hey_rey_detector: `self.buffer_size = int(SAMPLE_RATE * 1.5)` -/
def buffer_size : ℕ := 24000

/-- hey_rey_detector: `self.cooldown_duration = SAMPLE_RATE * 2` (samples) -/
def cooldown_duration : ℤ := 32000

/-- hey_rey_detector: `deque(maxlen=5)` for prediction smoothing -/
def history_maxlen : ℕ := 5

/-- server.handle_audio: `min_frames = config.SAMPLE_RATE / config.CHUNK_SIZE * 1.0`
(the floats 31.25, 62.5 and 468.75 are exactly representable, so ℚ matches). -/
def MIN_FRAMES : ℚ := (16000 : ℚ) / 512 * 1

/-- server.handle_audio: end-of-speech threshold `config.SAMPLE_RATE / config.CHUNK_SIZE * 2.0` -/
def SILENCE_RUN_LIMIT : ℚ := (16000 : ℚ) / 512 * 2

/-- server.handle_audio: hard listening timeout `config.SAMPLE_RATE / config.CHUNK_SIZE * 15` -/
def LISTEN_TIMEOUT_FRAMES : ℚ := (16000 : ℚ) / 512 * 15

/-- server.detect_silence default threshold 0.005 -/
def SILENCE_RMS : ℚ := 5 / 1000

/-- server.process_speech quiet-check threshold 0.01 -/
def QUIET_RMS : ℚ := 1 / 100

/-! ### Small helpers -/

/-- Keep the last `n` entries of a list: the semantics of pushing onto a
`collections.deque(maxlen=n)`. -/
def takeLast (n : ℕ) (l : List α) : List α := (l.reverse.take n).reverse

/-- np.mean of a rational list. -/
def listMean (l : List ℚ) : ℚ := l.sum / l.length

/-- np.mean of the squares of the samples (see the RMS convention above). -/
def meanSq (samples : List ℚ) : ℚ :=
  (samples.map fun x => x * x).sum / samples.length

/-! ### HeyReyDetector (hey_rey_detector.py) -/

/-- State of `HeyReyDetector`.  `model_loaded` is the truth of
`self.model is not None` (the model file existed at construction). -/
structure HeyReyDetector where
  model_loaded : Bool
  audio_buffer : List ℚ
  prediction_history : List ℚ
  cooldown_samples : ℤ
deriving DecidableEq

/-- HeyReyDetector.reset: clear both deques and start the cooldown. -/
def HeyReyDetector.reset (d : HeyReyDetector) : HeyReyDetector :=
  { d with audio_buffer := [], prediction_history := [],
           cooldown_samples := cooldown_duration }

/-- Result of one `predict` call.  `ranInference` is instrumentation recording
whether the MFCC/LSTM classification branch was executed on this call; it does
not feed back into the state. -/
structure PredictOut where
  det : HeyReyDetector
  scores : List (String × ℚ)
  ranInference : Bool
deriving DecidableEq

/-- The rolling buffer as predict extends it with the incoming chunk:
`self.audio_buffer.extend(audio_chunk.tolist())` on a deque with
`maxlen=buffer_size` keeps the newest `buffer_size` samples. -/
def HeyReyDetector.extended_buffer (d : HeyReyDetector) (chunk : List ℚ) : List ℚ :=
  takeLast buffer_size (d.audio_buffer ++ chunk)

/-- The smoothing history as predict extends it with a fresh prediction:
`self.prediction_history.append(prediction)` on a deque with `maxlen=5`. -/
def HeyReyDetector.extended_history (d : HeyReyDetector) (p : ℚ) : List ℚ :=
  takeLast history_maxlen (d.prediction_history ++ [p])

/-- HeyReyDetector.predict.  `infer` is the oracle for
`librosa.feature.mfcc` + padding + the LSTM forward pass on the full rolling
buffer; `none` means that computation raised (the source catches the
exception and returns a zero score).  The int16→float32 conversion at the
top of the source function preserves values and length and is the identity
here. -/
def HeyReyDetector.predict (d : HeyReyDetector) (chunk : List ℚ)
    (infer : List ℚ → Option ℚ) : PredictOut :=
  if d.model_loaded = false then ⟨d, [("hey_rey", 0)], false⟩
  else if 0 < d.cooldown_samples then
    ⟨{ d with cooldown_samples := d.cooldown_samples - chunk.length },
     [("hey_rey", 0)], false⟩
  else
    if (d.extended_buffer chunk).length < buffer_size then
      ⟨{ d with audio_buffer := d.extended_buffer chunk }, [("hey_rey", 0)], false⟩
    else
      match infer (d.extended_buffer chunk) with
      | none => ⟨{ d with audio_buffer := d.extended_buffer chunk },
                 [("hey_rey", 0)], false⟩
      | some p =>
        ⟨{ d with audio_buffer := d.extended_buffer chunk,
                  prediction_history := d.extended_history p },
         [("hey_rey", listMean (d.extended_history p))], true⟩

/-! ### Server data model (server.py) -/

/-- The session state enum `State` of server.py. -/
inductive State where
  | waiting_for_wake_word
  | listening
  | processing
  | speaking
deriving DecidableEq

/-- Messages the server sends to the client over the websocket (plus two
trace markers).  `backendRequest` marks the single outbound POST of
`ask_openclaw`; `backendResolved` marks the point where the awaited request
task completed (successfully or with an exception) and the keepalive loop
stopped. -/
inductive Ev where
  | stateMsg (s : State) (message : String)
  | responseMsg (user_text rey_text : String)
  | errorMsg (message : String)
  | audioOut (payload : List ℕ)
  | backendRequest (text : String)
  | backendResolved
  | keepalive
  | notification (title : Option String) (message priority : String) (speak : Bool)
deriving DecidableEq

/-- The configuration values of config.py that the claims touch.  The two
API keys are modelled by their truthiness, which is all the source tests. -/
structure Config where
  wake_word_threshold : ℚ
  elevenlabs_api_key : Bool
  openai_api_key : Bool
  auth_token : String
deriving DecidableEq

/-- Oracles for the external collaborators of one turn.  `none` or
`Except.error` models the call raising an exception.  `backend_time` is the
number of time units (seconds) until the OpenClaw request task completes,
driving the keepalive loop. -/
structure Env where
  infer : List ℚ → Option ℚ
  transcribe_result : Except String String
  backend_result : Except String String
  backend_time : ℕ
  elevenlabs : String → Option (List ℕ)
  openai : String → Option (List ℕ)

/-- The per-connection mutable state of `VoiceSession` (the websocket handle
is implicit in the event trace; `session_id` and `conversation_history` are
never read by the claims). -/
structure VoiceSession where
  state : State
  audio_buffer : List (List ℚ)
  silence_frames : ℕ
  wake_word_cooldown : Bool
  oww_model : HeyReyDetector
deriving DecidableEq

/-- VoiceSession.detect_silence: `rms < threshold` embedded as
`mean(chunk**2) < threshold * threshold` (both nonneg, see header note). -/
def detect_silence (chunk : List ℚ) (threshold : ℚ) : Bool :=
  decide (meanSq chunk < threshold * threshold)

/-- The label-threshold scan of VoiceSession.process_wake_word:
`for key, score in prediction.items(): if score > threshold: return True`. -/
def any_above (threshold : ℚ) (scores : List (String × ℚ)) : Bool :=
  scores.any fun kv => decide (threshold < kv.2)

/-- VoiceSession.process_wake_word: run the detector on the chunk and report
whether any label score exceeds the configured threshold.  The int16
round-trip `(chunk * 32768).astype(np.int16)` followed by the detector
dividing by 32768 again is treated as the identity on samples (no claim
depends on sample quantisation). -/
def process_wake_word (cfg : Config) (env : Env) (d : HeyReyDetector)
    (chunk : List ℚ) : HeyReyDetector × Bool :=
  let o := d.predict chunk env.infer
  (o.det, any_above cfg.wake_word_threshold o.scores)

/-! ### Synthesis fallback chain (VoiceSession.synthesize_speech) -/

/-- A record of one provider invocation, carrying the (already truncated)
text actually sent to that provider. -/
inductive SynthAttempt where
  | elevenlabs (text : String)
  | openai (text : String)
deriving DecidableEq

/-- The OpenAI leg of synthesize_speech: attempted only if
config.OPENAI_API_KEY is truthy; the request body carries `text[:4096]`;
an exception is caught and execution falls to the final return of b"". -/
def synthesize_openai_leg (cfg : Config) (env : Env) (text : String)
    (tried : List SynthAttempt) : List SynthAttempt × List ℕ :=
  if cfg.openai_api_key then
    match env.openai (text.take 4096) with
    | some content => (tried ++ [SynthAttempt.openai (text.take 4096)], content)
    | none => (tried ++ [SynthAttempt.openai (text.take 4096)], [])
  else (tried, [])

/-- VoiceSession.synthesize_speech: ElevenLabs first (if configured) with
`text[:5000]`; a successful response returns `response.content` directly
(whatever its length); an exception falls through to the OpenAI leg.
Returns the list of provider invocations made and the payload. -/
def synthesize_speech (cfg : Config) (env : Env) (text : String) :
    List SynthAttempt × List ℕ :=
  if cfg.elevenlabs_api_key then
    match env.elevenlabs (text.take 5000) with
    | some content => ([SynthAttempt.elevenlabs (text.take 5000)], content)
    | none => synthesize_openai_leg cfg env text [SynthAttempt.elevenlabs (text.take 5000)]
  else synthesize_openai_leg cfg env text []

/-! ### Backend query pipeline (VoiceSession.ask_openclaw) -/

/-- The keepalive loop of ask_openclaw: `while not request_task.done():
await wait_for(shield(request_task), timeout=5.0)` — one keepalive message
is sent at each elapsed multiple of 5 time units at which the request is
still outstanding.  `t` is the remaining time until the request resolves;
the recursive call at `t + 6` proceeds with `(t + 6) - 5 = t + 1`, written
structurally so the function computes by kernel reduction. -/
def keepalive_loop : ℕ → List Ev
  | 0 | 1 | 2 | 3 | 4 | 5 => []
  | t + 6 => Ev.keepalive :: keepalive_loop (t + 1)

/-- Number of keepalives sent for a request that resolves after `t` units. -/
def keepalive_count (t : ℕ) : ℕ := (keepalive_loop t).length

/-- VoiceSession.ask_openclaw: exactly one outbound request is issued
(`request_task = create_task(do_request())`, no retry anywhere); the
keepalive loop runs beside it and stops when the task is done; the awaited
result of the task — reply text, or the raised exception — is returned
unchanged. -/
def ask_openclaw (env : Env) (text : String) : List Ev × Except String String :=
  (Ev.backendRequest text :: (keepalive_loop env.backend_time ++ [Ev.backendResolved]),
   env.backend_result)

/-! ### process_speech (VoiceSession.process_speech) -/

/-- The quiet-utterance branch of process_speech: engage the cooldown flag,
reset the detector, sleep 1.5 s, reset again, clear the flag, then announce
the return to waiting. -/
def process_speech_quiet_branch (s : VoiceSession) : VoiceSession :=
  let s1 := { s with wake_word_cooldown := true, oww_model := s.oww_model.reset }
  let s2 := { s1 with oww_model := s1.oww_model.reset, wake_word_cooldown := false }
  { s2 with state := State.waiting_for_wake_word }

/-- The try-block of process_speech.  Exceptions (empty concatenation,
transcription failure, backend failure) land in the except-branch which
sends an error message to the client.  The websocket sends themselves are
assumed not to raise.  Matching on `env.backend_result` is matching on
`(ask_openclaw env text).2`, which is definitionally that field. -/
def process_speech_try (cfg : Config) (env : Env) (s : VoiceSession) :
    VoiceSession × List Ev :=
  if s.audio_buffer = [] then
    -- np.concatenate of an empty list raises ValueError, caught by except
    (s, [Ev.errorMsg "need at least one array to concatenate"])
  else
    -- audio_data = np.concatenate(self.audio_buffer)
    if meanSq s.audio_buffer.flatten < QUIET_RMS * QUIET_RMS then
      (process_speech_quiet_branch s,
       [Ev.stateMsg State.waiting_for_wake_word "Didnt hear anything"])
    else
      match env.transcribe_result with
      | Except.error e => (s, [Ev.errorMsg e])
      | Except.ok text =>
        if text = "" ∨ text.trim.length < 2 then
          ({ s with state := State.waiting_for_wake_word },
           [Ev.stateMsg State.waiting_for_wake_word "Didnt catch that"])
        else
          let bevs := (ask_openclaw env text).1
          match env.backend_result with
          | Except.error e => (s, bevs ++ [Ev.errorMsg e])
          | Except.ok response =>
            let s1 := { s with state := State.speaking }
            let audio := (synthesize_speech cfg env response).2
            (s1,
             bevs ++ [Ev.responseMsg text response,
                      Ev.stateMsg State.speaking (response.take 50 ++ "...")] ++
               (if audio = [] then [] else [Ev.audioOut audio]))

/-- The finally-block of process_speech: clear the buffer, engage the
cooldown flag, reset the detector, sleep 3 s, reset again, clear the flag.
The net detector state is a fresh reset (cooldown counter fully loaded). -/
def process_speech_finally (s : VoiceSession) : VoiceSession :=
  let s1 := { s with audio_buffer := [], wake_word_cooldown := true,
                     oww_model := s.oww_model.reset }
  { s1 with oww_model := s1.oww_model.reset, wake_word_cooldown := false }

/-- VoiceSession.process_speech: announce Processing, run the try-block,
then unconditionally run the finally-block and announce the return to
waiting (send_state also assigns the state field). -/
def process_speech (cfg : Config) (env : Env) (s : VoiceSession) :
    VoiceSession × List Ev :=
  let r := process_speech_try cfg env { s with state := State.processing }
  ({ process_speech_finally r.1 with state := State.waiting_for_wake_word },
   Ev.stateMsg State.processing "Thinking..." ::
     (r.2 ++ [Ev.stateMsg State.waiting_for_wake_word ""]))

/-! ### handle_audio (VoiceSession.handle_audio) -/

/-- Result of one handle_audio step.  The two `_fired` flags are
instrumentation recording which of the two `await self.process_speech()`
call sites executed during this frame. -/
structure StepOut where
  sess : VoiceSession
  evs : List Ev
  silence_fired : Bool
  timeout_fired : Bool
deriving DecidableEq

/-- The Listening branch of handle_audio: append the frame, run the
silence-counter logic (which may end the turn), then the hard-timeout check
on `self.audio_buffer` as it stands after any turn end. -/
def handle_audio_listening (cfg : Config) (env : Env) (s : VoiceSession)
    (chunk : List ℚ) : StepOut :=
  let s1 := { s with audio_buffer := s.audio_buffer ++ [chunk] }
  let afterSil : StepOut :=
    if MIN_FRAMES < (s1.audio_buffer.length : ℚ) ∧ detect_silence chunk SILENCE_RMS = true then
      let s2 := { s1 with silence_frames := s1.silence_frames + 1 }
      if SILENCE_RUN_LIMIT < (s2.silence_frames : ℚ) then
        let r := process_speech cfg env s2
        ⟨r.1, r.2, true, false⟩
      else ⟨s2, [], false, false⟩
    else ⟨{ s1 with silence_frames := 0 }, [], false, false⟩
  if LISTEN_TIMEOUT_FRAMES < (afterSil.sess.audio_buffer.length : ℚ) then
    let r := process_speech cfg env afterSil.sess
    ⟨r.1, afterSil.evs ++ r.2, afterSil.silence_fired, true⟩
  else afterSil

/-- VoiceSession.handle_audio: dispatch on the session state.  In
WaitingForWake the wake gate runs only when the cooldown flag is down; a
detection resets the detector, announces Listening and clears buffer and
counter.  Frames arriving in Processing/Speaking are ignored. -/
def handle_audio (cfg : Config) (env : Env) (s : VoiceSession)
    (chunk : List ℚ) : StepOut :=
  match s.state with
  | State.waiting_for_wake_word =>
    if s.wake_word_cooldown = false then
      let r := process_wake_word cfg env s.oww_model chunk
      if r.2 then
        ⟨{ s with oww_model := r.1.reset, state := State.listening,
                  audio_buffer := [], silence_frames := 0 },
         [Ev.stateMsg State.listening "Im listening..."], false, false⟩
      else ⟨{ s with oww_model := r.1 }, [], false, false⟩
    else ⟨s, [], false, false⟩
  | State.listening => handle_audio_listening cfg env s chunk
  | _ => ⟨s, [], false, false⟩

/-! ### The /inbox endpoint -/

/-- The request body of POST /inbox. -/
structure InboxMsg where
  message : String
  priority : String
  speak : Bool
  title : Option String
deriving DecidableEq

/-- What the broadcaster sees of one connected session: its current state
and whether sends on its websocket succeed.  A dead connection makes the
first send of the per-session try-block raise. -/
structure ClientSession where
  state : State
  conn_ok : Bool
deriving DecidableEq

/-- The announcement string: `f"TITLE: MESSAGE"` when a truthy title is
present. -/
def announcement_of (msg : InboxMsg) : String :=
  match msg.title with
  | some t => if t = "" then msg.message else t ++ ": " ++ msg.message
  | none => msg.message

/-- One iteration of the inbox broadcast loop: send the notification, then,
if `speak` is set and the session is idle, synthesize the announcement and —
when the payload is non-empty — send Speaking, the audio, and Waiting.
`none` models the except-branch (delivery failed, not counted). -/
def deliver_one (cfg : Config) (env : Env) (msg : InboxMsg) (ann : String)
    (c : ClientSession) : Option (List Ev) :=
  if c.conn_ok = false then none
  else
    let note := [Ev.notification msg.title msg.message msg.priority msg.speak]
    if msg.speak = true ∧ c.state = State.waiting_for_wake_word then
      let audio := (synthesize_speech cfg env ann).2
      if audio = [] then some note
      else some (note ++ [Ev.stateMsg State.speaking (ann.take 50 ++ "..."),
                          Ev.audioOut audio,
                          Ev.stateMsg State.waiting_for_wake_word ""])
    else some note

/-- The broadcast loop over connected_sessions: each session is attempted
inside its own try/except, and `delivered` counts the successes. -/
def inbox_deliver (cfg : Config) (env : Env) (msg : InboxMsg) (ann : String) :
    List ClientSession → List (Option (List Ev)) × ℕ
  | [] => ([], 0)
  | c :: rest =>
    let r := deliver_one cfg env msg ann c
    let tail := inbox_deliver cfg env msg ann rest
    (r :: tail.1, (if r.isSome then 1 else 0) + tail.2)

/-- The auth check at the top of the inbox handler.  Python truthiness makes
an absent or empty header fail the first test; then the header must start
with "Bearer "; then `authorization.replace("Bearer ", "")` — which removes
EVERY occurrence of the substring, not just the prefix — must equal the
configured token. -/
def inbox_auth_ok (auth_token : String) (auth_header : Option String) : Bool :=
  if auth_token = "" then true
  else
    match auth_header with
    | none => false
    | some a =>
      if a = "" then false
      else if a.startsWith "Bearer " = false then false
      else decide (a.replace "Bearer " "" = auth_token)

/-- The three possible handler outcomes of POST /inbox. -/
inductive InboxResult where
  | unauthorized
  | queued
  | delivered (outcomes : List (Option (List Ev))) (count : ℕ)
deriving DecidableEq

/-- The /inbox handler: auth check first (before any session is touched),
then the no-clients early return, then the broadcast loop. -/
def inbox (cfg : Config) (env : Env) (auth_header : Option String)
    (msg : InboxMsg) (sessions : List ClientSession) : InboxResult :=
  if inbox_auth_ok cfg.auth_token auth_header = false then InboxResult.unauthorized
  else if sessions = [] then InboxResult.queued
  else
    let r := inbox_deliver cfg env msg (announcement_of msg) sessions
    InboxResult.delivered r.1 r.2

/-- Recognizer for the outbound-request trace marker (claim C5). -/
def is_backend_request : Ev → Bool
  | Ev.backendRequest _ => true
  | _ => false

/-- The exact condition under which the silence-detection call site of
process_speech fires on a frame arriving in Listening: buffer and counter
as they stand before the frame, `+ 1` accounting for the appended frame and
the incremented counter at the moment of the comparisons. -/
def silence_fire_cond (s : VoiceSession) (chunk : List ℚ) : Bool :=
  decide (MIN_FRAMES < (s.audio_buffer.length : ℚ) + 1 ∧
    detect_silence chunk SILENCE_RMS = true ∧
    SILENCE_RUN_LIMIT < (s.silence_frames : ℚ) + 1)

/-- The hard-timeout condition as evaluated on the buffer including the
frame just appended (when no silence-detection turn end intervened). -/
def hard_timeout_cond (s : VoiceSession) : Bool :=
  decide (LISTEN_TIMEOUT_FRAMES < (s.audio_buffer.length : ℚ) + 1)

/-- The silence counter value after the counter logic of one Listening
frame: incremented past the one-second minimum on a silent frame, zeroed
otherwise. -/
def post_counter (s : VoiceSession) (chunk : List ℚ) : ℕ :=
  if MIN_FRAMES < (s.audio_buffer.length : ℚ) + 1 ∧
      detect_silence chunk SILENCE_RMS = true
  then s.silence_frames + 1 else 0

/-- The session as it stands right after the append and counter update of
one Listening frame, before any turn end. -/
def post_session (s : VoiceSession) (chunk : List ℚ) : VoiceSession :=
  { s with audio_buffer := s.audio_buffer ++ [chunk],
           silence_frames := post_counter s chunk }

/-! ### Concrete instances used by witnesses and counterexamples -/

/-- A loaded detector with a positive cooldown counter. -/
def d0 : HeyReyDetector := ⟨true, [], [], 100⟩

/-- A default environment: every collaborator call raises / yields nothing. -/
def someEnv : Env :=
  { infer := fun _ => none, transcribe_result := Except.ok "",
    backend_result := Except.ok "", backend_time := 0,
    elevenlabs := fun _ => none, openai := fun _ => none }

/-- A default configuration (wake threshold 0.5, nothing configured). -/
def someCfg : Config :=
  { wake_word_threshold := 1 / 2, elevenlabs_api_key := false,
    openai_api_key := false, auth_token := "" }

/-- Listening session with a single buffered frame (below the one-second
minimum) — the C2 counterexample state. -/
def c2CexSession : VoiceSession :=
  { state := State.listening, audio_buffer := [[0]], silence_frames := 0,
    wake_word_cooldown := false, oww_model := d0 }

/-- Listening session past the one-second minimum with a running silence
count of 5. -/
def c2WitSession : VoiceSession :=
  { state := State.listening, audio_buffer := List.replicate 32 [0],
    silence_frames := 5, wake_word_cooldown := false, oww_model := d0 }

/-- Listening session on which the next silent frame satisfies the silence
end-of-turn condition and the hard-timeout condition simultaneously. -/
def c3WitSession : VoiceSession :=
  { state := State.listening, audio_buffer := List.replicate 469 [0],
    silence_frames := 62, wake_word_cooldown := false, oww_model := d0 }

/-- Environment whose backend call fails after 7 time units. -/
def c5Env : Env :=
  { someEnv with transcribe_result := Except.ok "hello",
                 backend_result := Except.error "boom", backend_time := 7 }

/-- Listening session holding one clearly-non-quiet frame. -/
def c5Session : VoiceSession :=
  { state := State.listening, audio_buffer := [[1]], silence_frames := 0,
    wake_word_cooldown := false, oww_model := d0 }

/-- Environment whose backend call succeeds after 11 time units. -/
def c6Env : Env :=
  { someEnv with backend_result := Except.ok "fine", backend_time := 11 }

/-- Both providers configured. -/
def c4Cfg : Config :=
  { someCfg with elevenlabs_api_key := true, openai_api_key := true }

/-- ElevenLabs succeeds with an EMPTY payload while OpenAI would succeed
with a non-empty one — the C4 counterexample environment. -/
def c4Env : Env :=
  { someEnv with elevenlabs := fun _ => some [], openai := fun _ => some [7] }

/-- ElevenLabs configured and succeeding with a non-empty payload. -/
def c7Cfg : Config := { someCfg with elevenlabs_api_key := true }

/-- Environment for the broadcast scenario. -/
def c7Env : Env := { someEnv with elevenlabs := fun _ => some [1, 2] }

/-- An out-of-band message with the speak flag set. -/
def c7Msg : InboxMsg :=
  { message := "visitor at the door", priority := "normal", speak := true,
    title := some "Home" }

/-- One idle session and one Listening session, both healthy. -/
def c7Sessions : List ClientSession :=
  [⟨State.waiting_for_wake_word, true⟩, ⟨State.listening, true⟩]

/-- Configuration with an auth token — the C9 failing configuration. -/
def c9Cfg : Config := { someCfg with auth_token := "secret" }

/-- A benign inbox message used to show delivery proceeds. -/
def c9Msg : InboxMsg :=
  { message := "hi", priority := "normal", speak := false, title := none }

/-! ### Helper lemmas -/

/-- The try-block never touches the silence counter. -/
lemma process_speech_try_silence_frames (cfg : Config) (env : Env) (s : VoiceSession) :
    (process_speech_try cfg env s).1.silence_frames = s.silence_frames := by
  unfold process_speech_try process_speech_quiet_branch
  dsimp only
  repeat' split
  all_goals rfl

/-- process_speech always hands back an empty session buffer. -/
lemma process_speech_buffer (cfg : Config) (env : Env) (s : VoiceSession) :
    (process_speech cfg env s).1.audio_buffer = [] := rfl

/-- process_speech always hands back a freshly-loaded wake cooldown. -/
lemma process_speech_cooldown (cfg : Config) (env : Env) (s : VoiceSession) :
    (process_speech cfg env s).1.oww_model.cooldown_samples = cooldown_duration := rfl

/-- process_speech always ends announcing WaitingForWake. -/
lemma process_speech_state (cfg : Config) (env : Env) (s : VoiceSession) :
    (process_speech cfg env s).1.state = State.waiting_for_wake_word := rfl

/-- process_speech never touches the silence counter. -/
lemma process_speech_silence_frames (cfg : Config) (env : Env) (s : VoiceSession) :
    (process_speech cfg env s).1.silence_frames = s.silence_frames := by
  show (process_speech_try cfg env { s with state := State.processing }).1.silence_frames
      = s.silence_frames
  rw [process_speech_try_silence_frames]

/-- In Listening, handle_audio is its Listening branch. -/
lemma handle_audio_of_listening (cfg : Config) (env : Env) (s : VoiceSession)
    (chunk : List ℚ) (hs : s.state = State.listening) :
    handle_audio cfg env s chunk = handle_audio_listening cfg env s chunk := by
  unfold handle_audio
  rw [hs]

/-- The length of the buffer with the new frame appended, as a rational. -/
lemma cast_len_append (l : List (List ℚ)) (c : List ℚ) :
    (((l ++ [c]).length : ℕ) : ℚ) = (l.length : ℚ) + 1 := by
  simp

/-- Casting a successor into ℚ. -/
lemma cast_succ (n : ℕ) : ((n + 1 : ℕ) : ℚ) = (n : ℚ) + 1 := by
  push_cast
  ring

/-- The hard timeout cannot retrigger on the buffer process_speech just
cleared. -/
lemma no_timeout_on_empty : ¬ LISTEN_TIMEOUT_FRAMES < ((([] : List (List ℚ)).length : ℕ) : ℚ) := by
  norm_num [LISTEN_TIMEOUT_FRAMES]

/-- Listening-branch characterization, firing case: the silence run ends the
turn and the hard-timeout check afterwards sees an empty buffer. -/
lemma handle_audio_listening_fire (cfg : Config) (env : Env) (s : VoiceSession)
    (chunk : List ℚ) (h : silence_fire_cond s chunk = true) :
    handle_audio_listening cfg env s chunk =
      ⟨(process_speech cfg env (post_session s chunk)).1,
       (process_speech cfg env (post_session s chunk)).2, true, false⟩ := by
  rw [silence_fire_cond, decide_eq_true_eq] at h
  obtain ⟨h1, h2, h3⟩ := h
  have hA : MIN_FRAMES < (s.audio_buffer.length : ℚ) + 1 ∧
      detect_silence chunk SILENCE_RMS = true := ⟨h1, h2⟩
  unfold handle_audio_listening
  dsimp only
  rw [cast_len_append, if_pos hA, cast_succ, if_pos h3]
  dsimp only
  rw [process_speech_buffer, if_neg no_timeout_on_empty]
  have hps : post_session s chunk =
      { s with audio_buffer := s.audio_buffer ++ [chunk],
               silence_frames := s.silence_frames + 1 } := by
    rw [post_session, post_counter, if_pos ⟨h1, h2⟩]
  rw [hps]

/-- Listening-branch characterization, hard-timeout case. -/
lemma handle_audio_listening_timeout (cfg : Config) (env : Env) (s : VoiceSession)
    (chunk : List ℚ) (h : silence_fire_cond s chunk = false)
    (ht : hard_timeout_cond s = true) :
    handle_audio_listening cfg env s chunk =
      ⟨(process_speech cfg env (post_session s chunk)).1,
       (process_speech cfg env (post_session s chunk)).2, false, true⟩ := by
  rw [silence_fire_cond, decide_eq_false_iff_not] at h
  rw [hard_timeout_cond, decide_eq_true_eq] at ht
  unfold handle_audio_listening
  dsimp only
  rw [cast_len_append]
  by_cases hA : MIN_FRAMES < (s.audio_buffer.length : ℚ) + 1 ∧
      detect_silence chunk SILENCE_RMS = true
  · have h3 : ¬ SILENCE_RUN_LIMIT < (s.silence_frames : ℚ) + 1 := by tauto
    rw [if_pos hA, cast_succ, if_neg h3]
    dsimp only
    rw [cast_len_append, if_pos ht]
    have hps : post_session s chunk =
        { s with audio_buffer := s.audio_buffer ++ [chunk],
                 silence_frames := s.silence_frames + 1 } := by
      rw [post_session, post_counter, if_pos hA]
    rw [hps, List.nil_append]
  · rw [if_neg hA]
    dsimp only
    rw [cast_len_append, if_pos ht]
    have hps : post_session s chunk =
        { s with audio_buffer := s.audio_buffer ++ [chunk],
                 silence_frames := 0 } := by
      rw [post_session, post_counter, if_neg hA]
    rw [hps, List.nil_append]

/-- Listening-branch characterization, no-turn-end case. -/
lemma handle_audio_listening_stay (cfg : Config) (env : Env) (s : VoiceSession)
    (chunk : List ℚ) (h : silence_fire_cond s chunk = false)
    (ht : hard_timeout_cond s = false) :
    handle_audio_listening cfg env s chunk =
      ⟨post_session s chunk, [], false, false⟩ := by
  rw [silence_fire_cond, decide_eq_false_iff_not] at h
  rw [hard_timeout_cond, decide_eq_false_iff_not] at ht
  unfold handle_audio_listening
  dsimp only
  rw [cast_len_append]
  by_cases hA : MIN_FRAMES < (s.audio_buffer.length : ℚ) + 1 ∧
      detect_silence chunk SILENCE_RMS = true
  · have h3 : ¬ SILENCE_RUN_LIMIT < (s.silence_frames : ℚ) + 1 := by tauto
    rw [if_pos hA, cast_succ, if_neg h3]
    dsimp only
    rw [cast_len_append, if_neg ht]
    have hps : post_session s chunk =
        { s with audio_buffer := s.audio_buffer ++ [chunk],
                 silence_frames := s.silence_frames + 1 } := by
      rw [post_session, post_counter, if_pos hA]
    rw [hps]
  · rw [if_neg hA]
    dsimp only
    rw [cast_len_append, if_neg ht]
    have hps : post_session s chunk =
        { s with audio_buffer := s.audio_buffer ++ [chunk],
                 silence_frames := 0 } := by
      rw [post_session, post_counter, if_neg hA]
    rw [hps]

/-! ### Claim C1 -/

/-- C1: after every exit of a turn from Listening/Processing/Speaking back
to WaitingForWake — whichever branch of process_speech ended it (success,
too-quiet utterance, empty or short transcript, transcription error, or
backend error, all of which are covered by quantifying over the
environment) — the sample cooldown counter of the wake gate is fully loaded (so
cooldown is engaged) and the session audio buffer is empty; the finally
block guarantees this on every branch. -/
theorem c1_exit_engages_cooldown_and_clears_buffer (cfg : Config) (env : Env)
    (s : VoiceSession) :
    0 < (process_speech cfg env s).1.oww_model.cooldown_samples ∧
    (process_speech cfg env s).1.oww_model.cooldown_samples = cooldown_duration ∧
    (process_speech cfg env s).1.audio_buffer = [] ∧
    (process_speech cfg env s).1.state = State.waiting_for_wake_word := by
  refine ⟨?_, process_speech_cooldown cfg env s, process_speech_buffer cfg env s,
    process_speech_state cfg env s⟩
  rw [process_speech_cooldown cfg env s]
  decide

/-! ### Claim C2 -/

/-- C2 (counterexample): the claim says the counter increases by one on
every consecutive silent frame and is reset only on a non-silent frame.
But in a Listening session holding a single buffered frame — below the
one-second minimum — a silent frame leaves the counter at 0 instead of
raising it to 1, because the source gates the increment on
`len(self.audio_buffer) > min_frames` and its else-branch zeroes the
counter even for silent frames. -/
theorem c2_counterexample :
    c2CexSession.state = State.listening ∧
    detect_silence [0] SILENCE_RMS = true ∧
    (handle_audio someCfg someEnv c2CexSession [0]).sess.silence_frames ≠
      c2CexSession.silence_frames + 1 := by
  with_unfolding_all decide

/-- C2 (amended): while Listening, the silence-run counter increases by one
on a silent frame only once more than the minimum number of frames is
buffered (counting the frame just appended), and is reset to zero on a
non-silent frame or on any frame arriving at or below that minimum; the
silence-based end-of-turn call fires exactly when the minimum-buffer bound
and the silence-run bound both hold on a silent frame. -/
theorem c2_amended_silence_counter (cfg : Config) (env : Env) (s : VoiceSession)
    (chunk : List ℚ) (hs : s.state = State.listening) :
    ((MIN_FRAMES < (s.audio_buffer.length : ℚ) + 1 ∧
        detect_silence chunk SILENCE_RMS = true) →
      (handle_audio cfg env s chunk).sess.silence_frames = s.silence_frames + 1) ∧
    ((¬ MIN_FRAMES < (s.audio_buffer.length : ℚ) + 1 ∨
        detect_silence chunk SILENCE_RMS = false) →
      (handle_audio cfg env s chunk).sess.silence_frames = 0) ∧
    (handle_audio cfg env s chunk).silence_fired = silence_fire_cond s chunk := by
  rw [handle_audio_of_listening cfg env s chunk hs]
  have key : (handle_audio_listening cfg env s chunk).sess.silence_frames
        = post_counter s chunk ∧
      (handle_audio_listening cfg env s chunk).silence_fired
        = silence_fire_cond s chunk := by
    by_cases hf : silence_fire_cond s chunk = true
    · rw [handle_audio_listening_fire cfg env s chunk hf, hf]
      refine ⟨?_, rfl⟩
      rw [show (⟨(process_speech cfg env (post_session s chunk)).1,
            (process_speech cfg env (post_session s chunk)).2, true, false⟩ :
            StepOut).sess = (process_speech cfg env (post_session s chunk)).1 from rfl,
          process_speech_silence_frames]
      rfl
    · have hf' : silence_fire_cond s chunk = false := by simpa using hf
      by_cases ht : hard_timeout_cond s = true
      · rw [handle_audio_listening_timeout cfg env s chunk hf' ht, hf']
        refine ⟨?_, rfl⟩
        rw [show (⟨(process_speech cfg env (post_session s chunk)).1,
              (process_speech cfg env (post_session s chunk)).2, false, true⟩ :
              StepOut).sess = (process_speech cfg env (post_session s chunk)).1 from rfl,
            process_speech_silence_frames]
        rfl
      · have ht' : hard_timeout_cond s = false := by simpa using ht
        rw [handle_audio_listening_stay cfg env s chunk hf' ht', hf']
        exact ⟨rfl, rfl⟩
  refine ⟨?_, ?_, key.2⟩
  · intro h
    rw [key.1, post_counter, if_pos h]
  · intro h
    have hneg : ¬ (MIN_FRAMES < (s.audio_buffer.length : ℚ) + 1 ∧
        detect_silence chunk SILENCE_RMS = true) := by
      rcases h with h | h
      · tauto
      · simp [h]
    rw [key.1, post_counter, if_neg hneg]

/-- C2 (amended) witness: a Listening session 32 frames deep with a silence
run of 5 sees a silent frame and the counter moves to 6. -/
theorem c2_amended_silence_counter_witness :
    (handle_audio someCfg someEnv c2WitSession [0]).sess.silence_frames = 6 := by
  have h := (c2_amended_silence_counter someCfg someEnv c2WitSession [0] rfl).1
  exact h ⟨by with_unfolding_all decide, by with_unfolding_all decide⟩

/-! ### Claim C3 -/

/-- C3: on any frame processed in Listening, the number of end-of-turn
calls executed (silence-detection call site plus hard-timeout call site) is
exactly one when the frame satisfies the qualifying-silence-run condition
or the hard-timeout condition, and zero otherwise — never two, even when
both conditions hold on the same frame, because the turn end empties the
buffer before the hard-timeout check reads it. -/
theorem c3_exactly_one_turn_end (cfg : Config) (env : Env) (s : VoiceSession)
    (chunk : List ℚ) (hs : s.state = State.listening) :
    (handle_audio cfg env s chunk).silence_fired.toNat +
        (handle_audio cfg env s chunk).timeout_fired.toNat =
      (silence_fire_cond s chunk || hard_timeout_cond s).toNat ∧
    (handle_audio cfg env s chunk).silence_fired.toNat +
        (handle_audio cfg env s chunk).timeout_fired.toNat ≤ 1 := by
  rw [handle_audio_of_listening cfg env s chunk hs]
  by_cases hf : silence_fire_cond s chunk = true
  · rw [handle_audio_listening_fire cfg env s chunk hf, hf]
    simp
  · have hf' : silence_fire_cond s chunk = false := by simpa using hf
    by_cases ht : hard_timeout_cond s = true
    · rw [handle_audio_listening_timeout cfg env s chunk hf' ht, hf', ht]
      simp
    · have ht' : hard_timeout_cond s = false := by simpa using ht
      rw [handle_audio_listening_stay cfg env s chunk hf' ht', hf', ht']
      simp

set_option maxRecDepth 8000 in
/-- C3 witness: a frame on which the silence condition and the hard timeout
hold simultaneously still produces exactly one end-of-turn call. -/
theorem c3_exactly_one_turn_end_witness :
    (silence_fire_cond c3WitSession [0] && hard_timeout_cond c3WitSession) = true ∧
    (handle_audio someCfg someEnv c3WitSession [0]).silence_fired.toNat +
      (handle_audio someCfg someEnv c3WitSession [0]).timeout_fired.toNat = 1 := by
  refine ⟨by with_unfolding_all decide, ?_⟩
  have h := (c3_exactly_one_turn_end someCfg someEnv c3WitSession [0] rfl).1
  rw [h]
  with_unfolding_all decide

/-! ### Claim C4 -/

/-- Spec-side restatement of the amended fallback-chain contract: providers
are tried in the fixed order ElevenLabs then OpenAI, each with its own
truncation applied before the call; an unconfigured or raising provider
falls through; the payload is that of the FIRST provider call that returns
at all — even when that payload is empty — and the chain yields an empty
payload when every provider raises or is unconfigured. -/
def chain_spec_payload (cfg : Config) (env : Env) (text : String) : List ℕ :=
  match (if cfg.elevenlabs_api_key then env.elevenlabs (text.take 5000) else none) with
  | some content => content
  | none =>
    match (if cfg.openai_api_key then env.openai (text.take 4096) else none) with
    | some content => content
    | none => []

/-- Spec-side restatement of which providers the amended chain invokes:
ElevenLabs when configured; OpenAI when configured and ElevenLabs did not
return (was unconfigured or raised). -/
def chain_spec_attempts (cfg : Config) (env : Env) (text : String) : List SynthAttempt :=
  (if cfg.elevenlabs_api_key then [SynthAttempt.elevenlabs (text.take 5000)] else []) ++
    (if cfg.elevenlabs_api_key = true ∧ env.elevenlabs (text.take 5000) ≠ none then []
     else if cfg.openai_api_key then [SynthAttempt.openai (text.take 4096)] else [])

/-- C4 (counterexample): with both providers configured, ElevenLabs
returning an EMPTY payload and OpenAI able to return a non-empty one, the
chain returns the empty payload and never invokes OpenAI — contradicting
"the first attempt that returns a non-empty audio payload is used" and
"if every provider fails or is unconfigured, the chain returns an empty
payload". -/
theorem c4_counterexample :
    c4Env.elevenlabs ("hi".take 5000) = some [] ∧
    c4Env.openai ("hi".take 4096) = some [7] ∧
    (synthesize_speech c4Cfg c4Env "hi").2 = [] ∧
    SynthAttempt.openai ("hi".take 4096) ∉ (synthesize_speech c4Cfg c4Env "hi").1 := by
  with_unfolding_all decide

/-- C4 (amended): the chain tries ElevenLabs before OpenAI, truncating to
5000 and 4096 characters respectively before each call; the first provider
call that returns without raising supplies the payload (even when empty)
and later providers are skipped; raising or unconfigured providers fall
through; when no provider returns, the chain returns an empty payload
without raising (it is a total function). -/
theorem c4_amended_fallback_chain (cfg : Config) (env : Env) (text : String) :
    synthesize_speech cfg env text
      = (chain_spec_attempts cfg env text, chain_spec_payload cfg env text) := by
  unfold synthesize_speech synthesize_openai_leg chain_spec_attempts chain_spec_payload
  by_cases he : cfg.elevenlabs_api_key
  · cases hev : env.elevenlabs (text.take 5000) with
    | none =>
      by_cases ho : cfg.openai_api_key
      · cases hov : env.openai (text.take 4096) <;> simp [he, hev, ho, hov]
      · simp [he, hev, ho]
    | some content => simp [he, hev]
  · by_cases ho : cfg.openai_api_key
    · cases hov : env.openai (text.take 4096) <;> simp [he, ho, hov]
    · simp [he, ho]

/-! ### Claims C5 and C6: backend pipeline lemmas -/

/-- Every event the keepalive loop emits is a keepalive. -/
lemma keepalive_loop_all : ∀ (t : ℕ) (ev : Ev), ev ∈ keepalive_loop t → ev = Ev.keepalive
  | 0, ev, h => by simp [keepalive_loop] at h
  | 1, ev, h => by simp [keepalive_loop] at h
  | 2, ev, h => by simp [keepalive_loop] at h
  | 3, ev, h => by simp [keepalive_loop] at h
  | 4, ev, h => by simp [keepalive_loop] at h
  | 5, ev, h => by simp [keepalive_loop] at h
  | t + 6, ev, h => by
    simp only [keepalive_loop, List.mem_cons] at h
    rcases h with h | h
    · exact h
    · exact keepalive_loop_all (t + 1) ev h

/-- The keepalive loop is a run of keepalives. -/
lemma keepalive_loop_replicate (t : ℕ) :
    keepalive_loop t = List.replicate (keepalive_count t) Ev.keepalive := by
  rw [keepalive_count]
  exact List.eq_replicate_length.mpr (keepalive_loop_all t)

/-- The keepalive loop emits no outbound backend request. -/
lemma countP_keepalive_loop (t : ℕ) :
    (keepalive_loop t).countP is_backend_request = 0 := by
  rw [List.countP_eq_zero]
  intro ev hev
  rw [keepalive_loop_all t ev hev]
  simp [is_backend_request]

/-- One keepalive fires for every full 5-unit interval strictly inside the
time the request stays outstanding. -/
lemma keepalive_count_ge (k t : ℕ) (h : 5 * k < t) : k ≤ keepalive_count t := by
  induction k generalizing t with
  | zero => exact Nat.zero_le _
  | succ k ih =>
    obtain ⟨u, rfl⟩ : ∃ u, t = u + 6 := ⟨t - 6, by omega⟩
    have hk : k ≤ keepalive_count (u + 1) := ih (u + 1) (by omega)
    rw [keepalive_count] at hk ⊢
    simp only [keepalive_loop, List.length_cons]
    omega

/-- The events of the try-block on a turn that reaches the backend call. -/
lemma process_speech_try_events_backend (cfg : Config) (env : Env) (s : VoiceSession)
    (text : String)
    (hbuf : s.audio_buffer ≠ [])
    (hq : ¬ meanSq s.audio_buffer.flatten < QUIET_RMS * QUIET_RMS)
    (ht : env.transcribe_result = Except.ok text)
    (hlen : ¬ (text = "" ∨ text.trim.length < 2)) :
    (process_speech_try cfg env s).2 =
      (ask_openclaw env text).1 ++
        (match env.backend_result with
         | Except.error e => [Ev.errorMsg e]
         | Except.ok response =>
             [Ev.responseMsg text response,
              Ev.stateMsg State.speaking (response.take 50 ++ "...")] ++
               (if (synthesize_speech cfg env response).2 = [] then []
                else [Ev.audioOut (synthesize_speech cfg env response).2])) := by
  unfold process_speech_try
  rw [if_neg hbuf, if_neg hq, ht]
  dsimp only
  rw [if_neg hlen]
  cases hb : env.backend_result with
  | error e => simp
  | ok response => simp [List.append_assoc]

/-! ### Claim C5 -/

/-- C5: a turn that reaches the backend issues exactly one outbound request
(the trace of process_speech contains a single backendRequest event and the
keepalive loop adds none, so no retry happens); when the call fails the
error is surfaced to the client as an error message, and the session ends
back in WaitingForWake with the wake-gate cooldown loaded. -/
theorem c5_backend_once_no_retry_error_surfaced (cfg : Config) (env : Env)
    (s : VoiceSession) (text : String)
    (hbuf : s.audio_buffer ≠ [])
    (hq : ¬ meanSq s.audio_buffer.flatten < QUIET_RMS * QUIET_RMS)
    (ht : env.transcribe_result = Except.ok text)
    (hlen : ¬ (text = "" ∨ text.trim.length < 2)) :
    (process_speech cfg env s).2.countP is_backend_request = 1 ∧
    (∀ e, env.backend_result = Except.error e →
      Ev.errorMsg e ∈ (process_speech cfg env s).2) ∧
    (process_speech cfg env s).1.state = State.waiting_for_wake_word ∧
    0 < (process_speech cfg env s).1.oww_model.cooldown_samples := by
  have h2 : (process_speech cfg env s).2 =
      Ev.stateMsg State.processing "Thinking..." ::
        ((process_speech_try cfg env { s with state := State.processing }).2 ++
          [Ev.stateMsg State.waiting_for_wake_word ""]) := rfl
  have htry := process_speech_try_events_backend cfg env
    { s with state := State.processing } text hbuf hq ht hlen
  refine ⟨?_, ?_, process_speech_state cfg env s, ?_⟩
  · rw [h2, htry]
    cases hb : env.backend_result with
    | error e =>
      simp [List.countP_cons, List.countP_append, is_backend_request,
        ask_openclaw, countP_keepalive_loop]
    | ok response =>
      by_cases ha : (synthesize_speech cfg env response).2 = [] <;>
        simp [ha, List.countP_cons, List.countP_append, is_backend_request,
          ask_openclaw, countP_keepalive_loop]
  · intro e hb
    rw [h2, htry, hb]
    simp
  · rw [process_speech_cooldown cfg env s]
    decide

/-- C5 witness: a concrete non-quiet turn whose backend call fails with
"boom": one request, the error surfaced, session back to waiting. -/
theorem c5_backend_once_no_retry_error_surfaced_witness :
    (process_speech someCfg c5Env c5Session).2.countP is_backend_request = 1 ∧
    Ev.errorMsg "boom" ∈ (process_speech someCfg c5Env c5Session).2 ∧
    (process_speech someCfg c5Env c5Session).1.state = State.waiting_for_wake_word := by
  have h := c5_backend_once_no_retry_error_surfaced someCfg c5Env c5Session "hello"
    (by with_unfolding_all decide) (by with_unfolding_all decide) rfl
    (by with_unfolding_all decide)
  exact ⟨h.1, h.2.1 "boom" rfl, h.2.2.1⟩

/-! ### Claim C6 -/

/-- C6: while the backend request is outstanding the pipeline emits one
keepalive at every full 5-unit interval strictly before resolution (so at
least k keepalives whenever 5k units pass before the request resolves);
the trace shows every keepalive precedes the resolution marker, so zero
keepalives are emitted after the request resolves; and the returned value
is exactly the backend result — the keepalive loop neither cancels nor
alters the underlying request. -/
theorem c6_keepalive_interval (env : Env) (text : String) (k : ℕ)
    (hk : 5 * k < env.backend_time) :
    (ask_openclaw env text).2 = env.backend_result ∧
    (ask_openclaw env text).1 =
      Ev.backendRequest text ::
        (List.replicate (keepalive_count env.backend_time) Ev.keepalive ++
          [Ev.backendResolved]) ∧
    k ≤ keepalive_count env.backend_time := by
  refine ⟨rfl, ?_, keepalive_count_ge k env.backend_time hk⟩
  unfold ask_openclaw
  rw [keepalive_loop_replicate]

/-- C6 witness: a request resolving after 11 units yields exactly two
keepalives, both before the resolution marker. -/
theorem c6_keepalive_interval_witness :
    (ask_openclaw c6Env "q").2 = Except.ok "fine" ∧
    (ask_openclaw c6Env "q").1 =
      Ev.backendRequest "q" ::
        (List.replicate 2 Ev.keepalive ++ [Ev.backendResolved]) ∧
    2 ≤ keepalive_count c6Env.backend_time := by
  have h := c6_keepalive_interval c6Env "q" 2 (by decide)
  refine ⟨h.1, ?_, h.2.2⟩
  rw [h.2.1, show keepalive_count c6Env.backend_time = 2 from by decide]

/-! ### Claim C7 -/

/-- A delivery attempt fails exactly when the connection is broken. -/
lemma deliver_one_eq_none_iff (cfg : Config) (env : Env) (msg : InboxMsg)
    (ann : String) (c : ClientSession) :
    deliver_one cfg env msg ann c = none ↔ c.conn_ok = false := by
  unfold deliver_one
  by_cases hc : c.conn_ok = false
  · simp [hc]
  · simp only [hc, if_false]
    repeat' split
    all_goals simp_all

/-- The outcome list of the broadcast loop is the per-session delivery
function mapped over the registry: session k gets the same outcome whether
or not any other session fails. -/
lemma inbox_deliver_map (cfg : Config) (env : Env) (msg : InboxMsg) (ann : String)
    (sessions : List ClientSession) :
    (inbox_deliver cfg env msg ann sessions).1 =
      sessions.map (deliver_one cfg env msg ann) := by
  induction sessions with
  | nil => rfl
  | cons c rest ih => simp [inbox_deliver, ih]

/-- The delivered counter counts exactly the healthy sessions. -/
lemma inbox_deliver_count (cfg : Config) (env : Env) (msg : InboxMsg) (ann : String)
    (sessions : List ClientSession) :
    (inbox_deliver cfg env msg ann sessions).2 =
      (sessions.filter fun c => c.conn_ok).length := by
  induction sessions with
  | nil => rfl
  | cons c rest ih =>
    have hsome : (deliver_one cfg env msg ann c).isSome = c.conn_ok := by
      rcases ho : deliver_one cfg env msg ann c with - | evs
      · rw [(deliver_one_eq_none_iff cfg env msg ann c).mp ho]
        rfl
      · have : ¬ c.conn_ok = false := fun hf =>
          by rw [(deliver_one_eq_none_iff cfg env msg ann c).mpr hf] at ho; cases ho
        simp at this
        simp [this]
    simp only [inbox_deliver, hsome, List.filter_cons]
    cases hc : c.conn_ok <;> simp [hc, ih, Nat.add_comm]

/-- Per-session delivery on a healthy connection with speak set: the
notification is always among the sent events, and synthesized audio is among
them exactly when the session is idle and the chain produced a non-empty
payload. -/
lemma deliver_one_ok (cfg : Config) (env : Env) (msg : InboxMsg) (ann : String)
    (c : ClientSession) (hc : c.conn_ok = true) (hspeak : msg.speak = true) :
    ∃ evs, deliver_one cfg env msg ann c = some evs ∧
      Ev.notification msg.title msg.message msg.priority msg.speak ∈ evs ∧
      ((∃ a, Ev.audioOut a ∈ evs) ↔
        (c.state = State.waiting_for_wake_word ∧
          (synthesize_speech cfg env ann).2 ≠ [])) := by
  unfold deliver_one
  have hc' : ¬ c.conn_ok = false := by simp [hc]
  rw [if_neg hc']
  by_cases hw : c.state = State.waiting_for_wake_word
  · rw [if_pos ⟨hspeak, hw⟩]
    by_cases ha : (synthesize_speech cfg env ann).2 = []
    · rw [if_pos ha]
      exact ⟨_, rfl, by simp, by simp [ha]⟩
    · rw [if_neg ha]
      refine ⟨_, rfl, by simp, ?_⟩
      constructor
      · intro _
        exact ⟨hw, ha⟩
      · intro _
        exact ⟨(synthesize_speech cfg env ann).2, by simp⟩
  · have hnw : ¬ (msg.speak = true ∧ c.state = State.waiting_for_wake_word) := by
      tauto
    rw [if_neg hnw]
    exact ⟨_, rfl, by simp, by simp [hw]⟩

/-- C7: for an out-of-band delivery with speak set, every session is
attempted independently (the outcome list is a per-session map, so one
failure aborts no other delivery, and the count tallies the healthy
sessions); every healthy session receives the text notification; and
synthesized audio goes exactly to the healthy sessions that are in
WaitingForWake when the chain yields a non-empty payload — a session in
any other state receives only the notification. -/
theorem c7_broadcast_speaks_only_to_idle (cfg : Config) (env : Env)
    (msg : InboxMsg) (sessions : List ClientSession) (hspeak : msg.speak = true) :
    (inbox_deliver cfg env msg (announcement_of msg) sessions).1 =
      sessions.map (deliver_one cfg env msg (announcement_of msg)) ∧
    (inbox_deliver cfg env msg (announcement_of msg) sessions).2 =
      (sessions.filter fun c => c.conn_ok).length ∧
    (∀ c : ClientSession,
      deliver_one cfg env msg (announcement_of msg) c = none ↔ c.conn_ok = false) ∧
    (∀ c : ClientSession, c.conn_ok = true →
      ∃ evs, deliver_one cfg env msg (announcement_of msg) c = some evs ∧
        Ev.notification msg.title msg.message msg.priority msg.speak ∈ evs ∧
        ((∃ a, Ev.audioOut a ∈ evs) ↔
          (c.state = State.waiting_for_wake_word ∧
            (synthesize_speech cfg env (announcement_of msg)).2 ≠ []))) := by
  exact ⟨inbox_deliver_map cfg env msg (announcement_of msg) sessions,
    inbox_deliver_count cfg env msg (announcement_of msg) sessions,
    fun c => deliver_one_eq_none_iff cfg env msg (announcement_of msg) c,
    fun c hc => deliver_one_ok cfg env msg (announcement_of msg) c hc hspeak⟩

/-- C7 witness: one idle and one Listening session, both healthy; only the
idle one receives audio, both are delivered. -/
theorem c7_broadcast_speaks_only_to_idle_witness :
    (∃ evs, deliver_one c7Cfg c7Env c7Msg (announcement_of c7Msg)
        ⟨State.waiting_for_wake_word, true⟩ = some evs ∧ (∃ a, Ev.audioOut a ∈ evs)) ∧
    (∃ evs, deliver_one c7Cfg c7Env c7Msg (announcement_of c7Msg)
        ⟨State.listening, true⟩ = some evs ∧ ¬ (∃ a, Ev.audioOut a ∈ evs)) ∧
    (inbox_deliver c7Cfg c7Env c7Msg (announcement_of c7Msg) c7Sessions).2 = 2 := by
  have h := c7_broadcast_speaks_only_to_idle c7Cfg c7Env c7Msg c7Sessions rfl
  obtain ⟨evs1, he1, -, hiff1⟩ := h.2.2.2 ⟨State.waiting_for_wake_word, true⟩ rfl
  obtain ⟨evs2, he2, -, hiff2⟩ := h.2.2.2 ⟨State.listening, true⟩ rfl
  refine ⟨⟨evs1, he1, hiff1.mpr ⟨rfl, by with_unfolding_all decide⟩⟩,
    ⟨evs2, he2, fun hx => ?_⟩, ?_⟩
  · exact absurd (hiff2.mp hx).1 (by decide)
  · rw [h.2.1]
    with_unfolding_all decide

/-! ### Claim C8 -/

/-- C8: with the model loaded, while the cooldown sample counter is
positive a predict call only decrements the counter by the sample count of
the frame and reports a zero score — the classifier does not run, and
neither the rolling audio buffer nor the prediction history changes; the
classifier runs only when no cooldown is active; and the server-side wake
detection fires exactly when some label in the returned mapping scores
strictly above the configured threshold. -/
theorem c8_wake_gate_cooldown (cfg : Config) (env : Env) (d : HeyReyDetector)
    (chunk : List ℚ) (hm : d.model_loaded = true) :
    (0 < d.cooldown_samples →
      (d.predict chunk env.infer).det.cooldown_samples
          = d.cooldown_samples - (chunk.length : ℤ) ∧
      (d.predict chunk env.infer).scores = [("hey_rey", 0)] ∧
      (d.predict chunk env.infer).ranInference = false ∧
      (d.predict chunk env.infer).det.audio_buffer = d.audio_buffer ∧
      (d.predict chunk env.infer).det.prediction_history = d.prediction_history) ∧
    ((d.predict chunk env.infer).ranInference = true → d.cooldown_samples ≤ 0) ∧
    ((process_wake_word cfg env d chunk).2 = true ↔
      ∃ kv ∈ (d.predict chunk env.infer).scores, cfg.wake_word_threshold < kv.2) := by
  have hm' : ¬ d.model_loaded = false := by simp [hm]
  refine ⟨?_, ?_, ?_⟩
  · intro hcd
    unfold HeyReyDetector.predict
    rw [if_neg hm', if_pos hcd]
    exact ⟨rfl, rfl, rfl, rfl, rfl⟩
  · intro hr
    by_contra hcd
    push_neg at hcd
    unfold HeyReyDetector.predict at hr
    rw [if_neg hm', if_pos hcd] at hr
    cases hr
  · unfold process_wake_word any_above
    dsimp only
    rw [List.any_eq_true]
    constructor
    · rintro ⟨kv, hkv, hgt⟩
      exact ⟨kv, hkv, of_decide_eq_true hgt⟩
    · rintro ⟨kv, hkv, hgt⟩
      exact ⟨kv, hkv, decide_eq_true hgt⟩

/-- C8 witness: a cooling-down detector fed a two-sample frame: the counter
drops from 100 to 98, the score is zero, the classifier did not run, and no
detection fires at threshold 0.5. -/
theorem c8_wake_gate_cooldown_witness :
    (d0.predict [0, 0] someEnv.infer).det.cooldown_samples = 98 ∧
    (d0.predict [0, 0] someEnv.infer).scores = [("hey_rey", 0)] ∧
    (d0.predict [0, 0] someEnv.infer).ranInference = false ∧
    (process_wake_word someCfg someEnv d0 [0, 0]).2 = false := by
  have h := c8_wake_gate_cooldown someCfg someEnv d0 [0, 0] rfl
  have h1 := h.1 (by decide)
  refine ⟨by rw [h1.1]; decide, h1.2.1, h1.2.2.1, ?_⟩
  rcases hf : (process_wake_word someCfg someEnv d0 [0, 0]).2 with - | -
  · rfl
  · exfalso
    obtain ⟨kv, hkv, hgt⟩ := h.2.2.mp hf
    rw [h1.2.1] at hkv
    simp only [List.mem_singleton] at hkv
    rw [hkv] at hgt
    revert hgt
    with_unfolding_all decide

/-! ### Claim C9 -/

/-- C9 (code bug): the auth check strips EVERY occurrence of the substring
"Bearer " from the header instead of only the prefix.  With token "secret",
the header carrying the WRONG bearer credential "secBearer ret" — the
header is literally the "Bearer " prefix followed by that credential, and
the credential differs from the token — passes the check, and the endpoint
proceeds to touch sessions and deliver instead of rejecting. -/
theorem c9_auth_accepts_wrong_credential :
    "Bearer secBearer ret" = "Bearer " ++ "secBearer ret" ∧
    "secBearer ret" ≠ "secret" ∧
    inbox_auth_ok "secret" (some "Bearer secBearer ret") = true ∧
    inbox c9Cfg someEnv (some "Bearer secBearer ret") c9Msg
        [⟨State.listening, true⟩]
      = InboxResult.delivered
          [some [Ev.notification none "hi" "normal" false]] 1 := by
  refine ⟨by with_unfolding_all decide, by decide, by with_unfolding_all decide,
    by with_unfolding_all decide⟩

/-! ### Claim C10 -/

/-- Sum of a list bounded above by one is at most the length. -/
lemma list_sum_le_length (l : List ℚ) (hb : ∀ x ∈ l, x ≤ 1) :
    l.sum ≤ (l.length : ℚ) := by
  induction l with
  | nil => simp
  | cons a t ih =>
    have ha := hb a (List.mem_cons_self a t)
    have ht := ih fun x hx => hb x (List.mem_cons_of_mem a hx)
    simp only [List.sum_cons, List.length_cons]
    push_cast
    linarith

/-- The mean of a non-empty list of values in [0, 1] lies in [0, 1]. -/
lemma listMean_bounds (l : List ℚ) (hne : l ≠ [])
    (hb : ∀ x ∈ l, 0 ≤ x ∧ x ≤ 1) : 0 ≤ listMean l ∧ listMean l ≤ 1 := by
  have hlen : (0 : ℚ) < l.length := by
    exact_mod_cast List.length_pos.mpr hne
  have hsum0 : 0 ≤ l.sum := List.sum_nonneg fun x hx => (hb x hx).1
  have hsum1 : l.sum ≤ (l.length : ℚ) := list_sum_le_length l fun x hx => (hb x hx).2
  constructor
  · exact div_nonneg hsum0 (le_of_lt hlen)
  · rw [listMean, div_le_one hlen]
    exact hsum1

/-- Membership in the kept tail implies membership in the original list. -/
lemma mem_takeLast (n : ℕ) (l : List α) (a : α) (h : a ∈ takeLast n l) : a ∈ l := by
  rw [takeLast, List.mem_reverse] at h
  have := List.take_subset n l.reverse h
  rwa [List.mem_reverse] at this

/-- The kept tail has length `min n l.length`. -/
lemma takeLast_length (n : ℕ) (l : List α) :
    (takeLast n l).length = min n l.length := by
  rw [takeLast, List.length_reverse, List.length_take, List.length_reverse]

/-- Keeping a positive number of entries of a non-empty list keeps some. -/
lemma takeLast_ne_nil (n : ℕ) (hn : 0 < n) (l : List α) (hl : l ≠ []) :
    takeLast n l ≠ [] := by
  have hlen : 0 < l.length := List.length_pos.mpr hl
  intro h
  have := takeLast_length n l
  rw [h] at this
  simp only [List.length_nil] at this
  omega

/-- Scores of predict always carry exactly the key hey_rey. -/
lemma predict_scores_map (d : HeyReyDetector) (chunk : List ℚ)
    (infer : List ℚ → Option ℚ) :
    (d.predict chunk infer).scores.map Prod.fst = ["hey_rey"] := by
  by_cases hm : d.model_loaded = false
  · unfold HeyReyDetector.predict
    rw [if_pos hm]
    rfl
  · by_cases hcd : 0 < d.cooldown_samples
    · unfold HeyReyDetector.predict
      rw [if_neg hm, if_pos hcd]
      rfl
    · by_cases hfull : (d.extended_buffer chunk).length < buffer_size
      · unfold HeyReyDetector.predict
        rw [if_neg hm, if_neg hcd, if_pos hfull]
        rfl
      · cases hi : infer (d.extended_buffer chunk) with
        | none =>
          unfold HeyReyDetector.predict
          rw [if_neg hm, if_neg hcd, if_neg hfull, hi]
          rfl
        | some p =>
          unfold HeyReyDetector.predict
          rw [if_neg hm, if_neg hcd, if_neg hfull, hi]
          rfl

/-- The extended smoothing history stays inside [0, 1] when the stored
history and the fresh prediction do. -/
lemma extended_history_bounds (d : HeyReyDetector) (p : ℚ)
    (hhist : ∀ q ∈ d.prediction_history, 0 ≤ q ∧ q ≤ 1)
    (hp : 0 ≤ p ∧ p ≤ 1) :
    ∀ q ∈ d.extended_history p, 0 ≤ q ∧ q ≤ 1 := by
  intro q hq
  have := mem_takeLast history_maxlen (d.prediction_history ++ [p]) q hq
  rcases List.mem_append.mp this with hq' | hq'
  · exact hhist q hq'
  · simp only [List.mem_singleton] at hq'
    rw [hq']
    exact hp

/-- The extended smoothing history is never empty. -/
lemma extended_history_ne_nil (d : HeyReyDetector) (p : ℚ) :
    d.extended_history p ≠ [] := by
  refine takeLast_ne_nil _ (by norm_num [history_maxlen]) _ ?_
  simp

/-- Every score predict reports lies in [0, 1], given a [0, 1]-valued
inference oracle and stored history. -/
lemma predict_scores_bounds (d : HeyReyDetector) (chunk : List ℚ)
    (infer : List ℚ → Option ℚ)
    (hinf : ∀ b p, infer b = some p → 0 ≤ p ∧ p ≤ 1)
    (hhist : ∀ p ∈ d.prediction_history, 0 ≤ p ∧ p ≤ 1) :
    ∀ kv ∈ (d.predict chunk infer).scores, 0 ≤ kv.2 ∧ kv.2 ≤ 1 := by
  by_cases hm : d.model_loaded = false
  · unfold HeyReyDetector.predict
    rw [if_pos hm]
    rintro kv hkv
    simp only [List.mem_singleton] at hkv
    rw [hkv]
    exact ⟨le_refl 0, by norm_num⟩
  · by_cases hcd : 0 < d.cooldown_samples
    · unfold HeyReyDetector.predict
      rw [if_neg hm, if_pos hcd]
      rintro kv hkv
      simp only [List.mem_singleton] at hkv
      rw [hkv]
      exact ⟨le_refl 0, by norm_num⟩
    · by_cases hfull : (d.extended_buffer chunk).length < buffer_size
      · unfold HeyReyDetector.predict
        rw [if_neg hm, if_neg hcd, if_pos hfull]
        rintro kv hkv
        simp only [List.mem_singleton] at hkv
        rw [hkv]
        exact ⟨le_refl 0, by norm_num⟩
      · cases hi : infer (d.extended_buffer chunk) with
        | none =>
          unfold HeyReyDetector.predict
          rw [if_neg hm, if_neg hcd, if_neg hfull, hi]
          rintro kv hkv
          simp only [List.mem_singleton] at hkv
          rw [hkv]
          exact ⟨le_refl 0, by norm_num⟩
        | some p =>
          have hmean := listMean_bounds _ (extended_history_ne_nil d p)
            (extended_history_bounds d p hhist (hinf _ p hi))
          unfold HeyReyDetector.predict
          rw [if_neg hm, if_neg hcd, if_neg hfull, hi]
          rintro kv hkv
          simp only [List.mem_singleton] at hkv
          rw [hkv]
          exact hmean

/-- The history predict stores stays inside [0, 1] under the same
assumptions. -/
lemma predict_history_bounds (d : HeyReyDetector) (chunk : List ℚ)
    (infer : List ℚ → Option ℚ)
    (hinf : ∀ b p, infer b = some p → 0 ≤ p ∧ p ≤ 1)
    (hhist : ∀ p ∈ d.prediction_history, 0 ≤ p ∧ p ≤ 1) :
    ∀ p ∈ (d.predict chunk infer).det.prediction_history, 0 ≤ p ∧ p ≤ 1 := by
  by_cases hm : d.model_loaded = false
  · unfold HeyReyDetector.predict
    rw [if_pos hm]
    exact hhist
  · by_cases hcd : 0 < d.cooldown_samples
    · unfold HeyReyDetector.predict
      rw [if_neg hm, if_pos hcd]
      exact hhist
    · by_cases hfull : (d.extended_buffer chunk).length < buffer_size
      · unfold HeyReyDetector.predict
        rw [if_neg hm, if_neg hcd, if_pos hfull]
        exact hhist
      · cases hi : infer (d.extended_buffer chunk) with
        | none =>
          unfold HeyReyDetector.predict
          rw [if_neg hm, if_neg hcd, if_neg hfull, hi]
          exact hhist
        | some p =>
          unfold HeyReyDetector.predict
          rw [if_neg hm, if_neg hcd, if_neg hfull, hi]
          exact extended_history_bounds d p hhist (hinf _ p hi)

/-- A missing model file yields the zero score. -/
lemma predict_zero_of_no_model (d : HeyReyDetector) (chunk : List ℚ)
    (infer : List ℚ → Option ℚ) (hm : d.model_loaded = false) :
    (d.predict chunk infer).scores = [("hey_rey", 0)] := by
  unfold HeyReyDetector.predict
  rw [if_pos hm]

/-- An active cooldown yields the zero score. -/
lemma predict_zero_of_cooldown (d : HeyReyDetector) (chunk : List ℚ)
    (infer : List ℚ → Option ℚ) (hcd : 0 < d.cooldown_samples) :
    (d.predict chunk infer).scores = [("hey_rey", 0)] := by
  by_cases hm : d.model_loaded = false
  · exact predict_zero_of_no_model d chunk infer hm
  · unfold HeyReyDetector.predict
    rw [if_neg hm, if_pos hcd]

/-- A rolling buffer still short of full yields the zero score. -/
lemma predict_zero_of_short_buffer (d : HeyReyDetector) (chunk : List ℚ)
    (infer : List ℚ → Option ℚ)
    (hs : d.audio_buffer.length + chunk.length < buffer_size) :
    (d.predict chunk infer).scores = [("hey_rey", 0)] := by
  by_cases hm : d.model_loaded = false
  · exact predict_zero_of_no_model d chunk infer hm
  · by_cases hcd : 0 < d.cooldown_samples
    · exact predict_zero_of_cooldown d chunk infer hcd
    · have hfull : (d.extended_buffer chunk).length < buffer_size := by
        have hlen_eq : (d.extended_buffer chunk).length
            = min buffer_size (d.audio_buffer ++ chunk).length := by
          rw [HeyReyDetector.extended_buffer, takeLast_length]
        rw [hlen_eq, List.length_append]
        omega
      unfold HeyReyDetector.predict
      rw [if_neg hm, if_neg hcd, if_pos hfull]

/-- A raising feature-extraction/inference call yields the zero score. -/
lemma predict_zero_of_infer_failure (d : HeyReyDetector) (chunk : List ℚ)
    (infer : List ℚ → Option ℚ)
    (hi : infer (d.extended_buffer chunk) = none) :
    (d.predict chunk infer).scores = [("hey_rey", 0)] := by
  by_cases hm : d.model_loaded = false
  · exact predict_zero_of_no_model d chunk infer hm
  · by_cases hcd : 0 < d.cooldown_samples
    · exact predict_zero_of_cooldown d chunk infer hcd
    · by_cases hfull : (d.extended_buffer chunk).length < buffer_size
      · unfold HeyReyDetector.predict
        rw [if_neg hm, if_neg hcd, if_pos hfull]
      · unfold HeyReyDetector.predict
        rw [if_neg hm, if_neg hcd, if_neg hfull, hi]

/-- C10: predict is a total function of the detector state, the frame and
the inference oracle (exceptions inside feature extraction or inference are
the `none` oracle outcome, caught and mapped to a zero score); it always
returns a mapping whose only key is hey_rey; provided every oracle output
lies in [0, 1] (the model ends in a Sigmoid) and the stored prediction
history does too, the reported score lies in [0, 1] and the updated history
stays within [0, 1]; and the score is exactly 0 whenever the model is
missing, a cooldown is active, the rolling buffer is not yet full, or the
inference oracle fails. -/
theorem c10_predict_total_and_bounded (d : HeyReyDetector) (chunk : List ℚ)
    (infer : List ℚ → Option ℚ)
    (hinf : ∀ b p, infer b = some p → 0 ≤ p ∧ p ≤ 1)
    (hhist : ∀ p ∈ d.prediction_history, 0 ≤ p ∧ p ≤ 1) :
    (d.predict chunk infer).scores.map Prod.fst = ["hey_rey"] ∧
    (∀ kv ∈ (d.predict chunk infer).scores, 0 ≤ kv.2 ∧ kv.2 ≤ 1) ∧
    (∀ p ∈ (d.predict chunk infer).det.prediction_history, 0 ≤ p ∧ p ≤ 1) ∧
    (d.model_loaded = false → (d.predict chunk infer).scores = [("hey_rey", 0)]) ∧
    (0 < d.cooldown_samples → (d.predict chunk infer).scores = [("hey_rey", 0)]) ∧
    (d.audio_buffer.length + chunk.length < buffer_size →
      (d.predict chunk infer).scores = [("hey_rey", 0)]) ∧
    (infer (d.extended_buffer chunk) = none →
      (d.predict chunk infer).scores = [("hey_rey", 0)]) :=
  ⟨predict_scores_map d chunk infer,
   predict_scores_bounds d chunk infer hinf hhist,
   predict_history_bounds d chunk infer hinf hhist,
   predict_zero_of_no_model d chunk infer,
   predict_zero_of_cooldown d chunk infer,
   predict_zero_of_short_buffer d chunk infer,
   predict_zero_of_infer_failure d chunk infer⟩

/-- C10 witness: the bounds theorem applied to a cooling-down detector and
a constant half-score oracle. -/
theorem c10_predict_total_and_bounded_witness :
    (d0.predict [0] (fun _ => some (1 / 2))).scores.map Prod.fst = ["hey_rey"] ∧
    (∀ kv ∈ (d0.predict [0] (fun _ => some (1 / 2))).scores, 0 ≤ kv.2 ∧ kv.2 ≤ 1) := by
  have h := c10_predict_total_and_bounded d0 [0] (fun _ => some (1 / 2))
    (fun b p hp => by
      simp only [Option.some.injEq] at hp
      subst hp
      constructor <;> norm_num)
    (fun p hp => by simp [d0] at hp)
  exact ⟨h.1, h.2.1⟩

end ReyVoice
